import Mathlib

/-!
Verification development for the `balancebeam` HTTP load balancer
(`src/proj-2/balancebeam/src/main.rs`).

The embedding is shallow: each Rust function becomes a Lean function over
explicit state.  Asynchronous I/O results (TCP connects, stream reads and
writes, random draws) are supplied as oracle inputs, so each embedded
function is a deterministic function of its oracle.  Loops whose
termination depends on the oracle (the upstream selector and connect
retry loops) are given fuel: a `none` / `.diverged` result means the loop
has not returned within that many iterations, so results that hold for
every fuel describe nontermination.

HTTP status codes are represented by their numeric value (`Nat`), as the
Rust code compares `resp.status()` against `200` and builds error
responses from fixed `http::StatusCode` constants.
-/

namespace BalanceBeam

/-- Numeric HTTP status codes used by `main.rs` via `http::StatusCode`. -/
def STATUS_OK : Nat := 200
def STATUS_BAD_REQUEST : Nat := 400
def STATUS_PAYLOAD_TOO_LARGE : Nat := 413
def STATUS_TOO_MANY_REQUESTS : Nat := 429
def STATUS_BAD_GATEWAY : Nat := 502
def STATUS_SERVICE_UNAVAILABLE : Nat := 503

/-- `request::Error` as matched in `handle_connection` (main.rs:224-229).
`incompleteRequest` carries the number of bytes read so far; the arm at
main.rs:212 distinguishes `IncompleteRequest(0)` (client hung up). -/
inductive RequestError where
  | incompleteRequest (bytesRead : Nat)
  | malformedRequest
  | invalidContentLength
  | contentLengthMismatch
  | requestBodyTooLarge
  | connectionError
  deriving DecidableEq, Repr

/-- The status code chosen by `make_http_error` dispatch at main.rs:223-230
for a request parsing error. -/
def errorStatus : RequestError → Nat
  | .incompleteRequest _ => STATUS_BAD_REQUEST
  | .malformedRequest => STATUS_BAD_REQUEST
  | .invalidContentLength => STATUS_BAD_REQUEST
  | .contentLengthMismatch => STATUS_BAD_REQUEST
  | .requestBodyTooLarge => STATUS_PAYLOAD_TOO_LARGE
  | .connectionError => STATUS_SERVICE_UNAVAILABLE

/-- The rate-limit counter `HashMap<String, usize>` modelled as an
association list keyed by client IP. -/
abbrev RateMap := List (String × Nat)

/-- Lookup in the rate map (`HashMap::get`). -/
def rateGet : RateMap → String → Option Nat
  | [], _ => none
  | (k, v) :: rest, key => if k = key then some v else rateGet rest key

/-- Store a value in the rate map, overwriting an existing binding
(`HashMap::insert` semantics, as produced by `entry(..).or_insert(0)`
followed by an in-place update). -/
def rateSet : RateMap → String → Nat → RateMap
  | [], key, val => [(key, val)]
  | (k, v) :: rest, key, val =>
      if k = key then (key, val) :: rest else (k, v) :: rateSet rest key val

/-- Observable events emitted while handling one client connection. -/
inductive Event where
  /-- An HTTP response with the given status was written to the client
  (`send_response`, used for error responses and rate-limit rejections). -/
  | sentResponse (status : Nat)
  /-- `connect_to_upstream` selected index `idx` and the TCP connect
  succeeded. -/
  | connectedUpstream (idx : Nat)
  /-- The client's request was written to the upstream connection `idx`
  (`request::write_to_stream` succeeded). -/
  | forwardedRequest (idx : Nat)
  /-- The upstream's response was relayed to the client. -/
  | forwardedResponse
  deriving DecidableEq, Repr

/-- `check_rate_limit_counter` (main.rs:349-361): increments the counter
for the client's IP — `entry(ip).or_insert(0)` then `*count += 1` — and,
if the post-increment count exceeds `max_requests_per_minute`, sends a
429 response and returns `false` (reject).  Returns the updated map, the
events sent to the client, and the accept/reject flag. -/
def check_rate_limit_counter (maxReq : Nat) (m : RateMap) (ip : String) :
    RateMap × List Event × Bool :=
  let count := (rateGet m ip).getD 0 + 1
  let m' := rateSet m ip count
  if count > maxReq then
    (m', [Event.sentResponse STATUS_TOO_MANY_REQUESTS], false)
  else
    (m', [], true)

/-- Timeline events of the rate-limit window resetter task. -/
inductive ResetEvent where
  | sleep (seconds : Nat)
  | clearMap
  deriving DecidableEq, Repr

/-- `refresh_rate_limit_counter` (main.rs:340-347): the body is straight
line — it `delay_for`s once for `active_health_check_interval` seconds,
clears `rate_limit_counter`, and returns.  There is no loop, so the
complete event trace of the task is this two-element list. -/
def refresh_rate_limit_counter (interval : Nat) : List ResetEvent :=
  [ResetEvent.sleep interval, ResetEvent.clearMap]

/-- `choose_health_upstream_randomly` (main.rs:137-146).  The loop body
draws `upstream_idx = rng.gen_range(0, upstream_status.len())` — modelled
by reducing the next raw draw modulo the vector length — and returns
`Some(upstream_idx)` when `upstream_status[upstream_idx]` is true;
otherwise it loops again.  The only `return` in the source is
`return Some(upstream_idx)`; no path of the loop returns `None`.  The
embedding's outer `Option` is fuel: `none` means the loop has not
returned within `fuel` iterations, and `some r` means the loop returned
with the Rust value `r : Option Nat`. -/
def choose_health_upstream_randomly :
    (fuel : Nat) → (draws : Nat → Nat) → (status : List Bool) → Option (Option Nat)
  | 0, _, _ => none
  | fuel + 1, draws, status =>
      let upstream_idx := draws 0 % status.length
      if status.getD upstream_idx false then some (some upstream_idx)
      else choose_health_upstream_randomly fuel (fun n => draws (n + 1)) status

/-- Result of `connect_to_upstream`. -/
inductive ConnectOutcome where
  /-- `Ok(upstream)`: connected to the upstream at index `idx`. -/
  | connected (idx : Nat)
  /-- `Err("All servers are dead")`: the selector returned `None`
  (main.rs:165-170). -/
  | unavailable
  /-- The function has not returned within the given fuel (it is still
  inside the selector loop or the retry loop). -/
  | diverged
  deriving DecidableEq, Repr

/-- `connect_to_upstream` (main.rs:148-172).  Each outer iteration calls
the selector; on `Some(idx)` it attempts `TcpStream::connect` on
`upstream_addresses[idx]` (outcome given by the oracle `connectOk`), and
on failure marks `upstream_status[idx] = false` and retries; on `None`
it returns the "All servers are dead" error.  `fuel` bounds the outer
retry iterations and `selFuel` bounds each selector call; `draws n` is
the random stream used by the selector call of outer iteration `n`.
Returns the outcome together with the updated health vector. -/
def connect_to_upstream :
    (fuel : Nat) → (selFuel : Nat) → (draws : Nat → Nat → Nat) →
    (connectOk : Nat → Bool) → (status : List Bool) → ConnectOutcome × List Bool
  | 0, _, _, _, status => (.diverged, status)
  | fuel + 1, selFuel, draws, connectOk, status =>
      match choose_health_upstream_randomly selFuel (draws 0) status with
      | none => (.diverged, status)
      | some none => (.unavailable, status)
      | some (some upstream_idx) =>
          if connectOk upstream_idx then (.connected upstream_idx, status)
          else
            connect_to_upstream fuel selFuel (fun n => draws (n + 1)) connectOk
              (status.set upstream_idx false)

/-- Oracle for one active-health-check probe of one upstream: whether the
TCP connect succeeded (`connect_to_specify_server`), whether writing the
GET request succeeded (`request::write_to_stream`), and the result of
reading the response (`none` = read error, `some s` = a response whose
status code is `s`). -/
structure ProbeOutcome where
  connectOk : Bool
  writeOk : Bool
  readResult : Option Nat
  deriving DecidableEq, Repr

/-- `check_server` (main.rs:277-311): connect to the upstream, write the
health-check GET request, read the response; returns `true` iff all three
succeed and the response status is exactly 200 (`http::StatusCode::OK`).
Any connect, write, or read failure, and any non-200 status, yields
`false`. -/
def check_server (p : ProbeOutcome) : Bool :=
  match p.connectOk with
  | false => false
  | true =>
    match p.writeOk with
    | false => false
    | true =>
      match p.readResult with
      | none => false
      | some s => decide (s = STATUS_OK)

/-- The `for upstream_idx in 0..upstream_status.len()` loop body of
`active_health_check` (main.rs:318-324), iterated over the remaining
index list: `upstream_status[upstream_idx] = check_server(..)`. -/
def sweepLoop (probe : Nat → ProbeOutcome) :
    List Nat → List Bool → List Bool
  | [], status => status
  | i :: rest, status => sweepLoop probe rest (status.set i (check_server (probe i)))

/-- One sweep of `active_health_check` (main.rs:313-326), after the
`delay_for`: with the status vector locked, rewrite every entry
`0..len` with the probe result of that upstream. -/
def active_health_check_sweep (probe : Nat → ProbeOutcome) (status : List Bool) :
    List Bool :=
  sweepLoop probe (List.range status.length) status

/-- Oracle for one iteration of `handle_connection`'s relay loop: the
result of `request::read_from_stream` on the client connection, then
(when a request was parsed) whether `request::write_to_stream` to the
upstream succeeded, and whether `response::read_from_stream` from the
upstream succeeded. -/
structure RelayStep where
  readResult : Except RequestError Unit
  writeOk : Bool
  respOk : Bool
  deriving Repr

/-- One iteration of the relay loop (main.rs:207-274), for the upstream
connection at index `idx`: returns the events emitted and whether the
loop continues to the next iteration (`false` = the function returned,
closing the client connection). -/
def relayStepRun (idx : Nat) (step : RelayStep) : List Event × Bool :=
  match step.readResult with
  | .error (.incompleteRequest 0) => ([], false)
  | .error .connectionError => ([], false)
  | .error e => ([Event.sentResponse (errorStatus e)], true)
  | .ok _ =>
      if step.writeOk then
        if step.respOk then
          ([Event.forwardedRequest idx, Event.forwardedResponse], true)
        else
          ([Event.forwardedRequest idx, Event.sentResponse STATUS_BAD_GATEWAY], false)
      else
        ([Event.sentResponse STATUS_BAD_GATEWAY], false)

/-- The relay loop of `handle_connection` (main.rs:207-274) over a finite
oracle of iteration outcomes, accumulating the emitted events.  The loop
stops early when an iteration returns (client hang-up, client I/O error,
or an upstream transport failure). -/
def relayLoop (idx : Nat) : List RelayStep → List Event
  | [] => []
  | step :: rest =>
      let (evs, cont) := relayStepRun idx step
      if cont then evs ++ relayLoop idx rest else evs

/-- `ProxyState` (main.rs:51-67), restricted to the fields the embedded
operations touch.  `upstream_status` is the health vector guarded by a
mutex in the source; mutex acquisition orders are serialized into the
operation sequence of the step machine below. -/
structure ProxyState where
  active_health_check_interval : Nat
  max_requests_per_minute : Nat
  upstream_addresses : List String
  upstream_status : List Bool
  rate_limit_counter : RateMap

/-- State construction in `main` (main.rs:96-105): the health vector is
`vec![true; options.upstream.len()]` and the rate map starts empty. -/
def initState (upstreams : List String) (interval : Nat) (maxReq : Nat) :
    ProxyState :=
  { active_health_check_interval := interval
    max_requests_per_minute := maxReq
    upstream_addresses := upstreams
    upstream_status := List.replicate upstreams.length true
    rate_limit_counter := [] }

/-- Oracle for one call of `handle_connection`: the client's IP, the fuel
and oracles for `connect_to_upstream`, and the relay-loop iteration
outcomes. -/
structure ConnEnv where
  clientIp : String
  fuel : Nat
  selFuel : Nat
  draws : Nat → Nat → Nat
  connectOk : Nat → Bool
  steps : List RelayStep

/-- `handle_connection` (main.rs:187-275): first `check_rate_limit_counter`
(a rejected client gets a 429 and the function returns); then
`connect_to_upstream` (on error, send a 502 and return); then the relay
loop over the established upstream connection.  Returns the updated
state and the events of this connection. -/
def handle_connection (env : ConnEnv) (s : ProxyState) : ProxyState × List Event :=
  let (m', evs, allowed) :=
    check_rate_limit_counter s.max_requests_per_minute s.rate_limit_counter env.clientIp
  let s1 := { s with rate_limit_counter := m' }
  if allowed then
    let (res, status') :=
      connect_to_upstream env.fuel env.selFuel env.draws env.connectOk s1.upstream_status
    let s2 := { s1 with upstream_status := status' }
    match res with
    | .diverged => (s2, evs)
    | .unavailable => (s2, evs ++ [Event.sentResponse STATUS_BAD_GATEWAY])
    | .connected idx => (s2, evs ++ Event.connectedUpstream idx :: relayLoop idx env.steps)
  else
    (s1, evs)

/-- The operations that touch `ProxyState` after initialization: a
health-check sweep (`active_health_check`), handling one client
connection (`handle_connection`), and one firing of the window resetter
(`refresh_rate_limit_counter`, which clears the rate map). -/
inductive Op where
  | sweep (probe : Nat → ProbeOutcome)
  | conn (env : ConnEnv)
  | refresh

/-- Apply one operation to the proxy state. -/
def applyOp (s : ProxyState) : Op → ProxyState
  | .sweep probe =>
      { s with upstream_status := active_health_check_sweep probe s.upstream_status }
  | .conn env => (handle_connection env s).1
  | .refresh => { s with rate_limit_counter := [] }

/-- Run a sequence of operations from a state. -/
def runOps (s : ProxyState) (ops : List Op) : ProxyState :=
  ops.foldl applyOp s

/-! ## Lemmas about the upstream selector and connect loop -/

/-- When every health flag is false, the selector's loop guard is false at
every draw, so the loop never returns, whatever the fuel. -/
lemma selector_all_false {status : List Bool} (h : ∀ b ∈ status, b = false) :
    ∀ (fuel : Nat) (draws : Nat → Nat),
      choose_health_upstream_randomly fuel draws status = none := by
  intro fuel
  induction fuel with
  | zero => intro draws; rfl
  | succ n ih =>
      intro draws
      have hfalse : status.getD (draws 0 % status.length) false = false := by
        rw [List.getD_eq_getElem?_getD]
        cases hb : status[draws 0 % status.length]? with
        | none => rfl
        | some b => simpa using h b (List.getElem?_mem hb)
      simp only [choose_health_upstream_randomly, hfalse, if_false]
      exact ih _

/-- The selector's only `return` is `return Some(upstream_idx)`: it never
returns the Rust value `None`. -/
lemma selector_ne_some_none (fuel : Nat) (draws : Nat → Nat) (status : List Bool) :
    choose_health_upstream_randomly fuel draws status ≠ some none := by
  induction fuel generalizing draws with
  | zero => simp [choose_health_upstream_randomly]
  | succ n ih =>
      simp only [choose_health_upstream_randomly]
      split
      · simp
      · exact ih _

/-- `connect_to_upstream` never takes its `Err("All servers are dead")`
branch: that branch is guarded by the selector returning `None`, which
never happens. -/
lemma connect_ne_unavailable :
    ∀ (fuel selFuel : Nat) (draws : Nat → Nat → Nat) (connectOk : Nat → Bool)
      (status : List Bool),
      (connect_to_upstream fuel selFuel draws connectOk status).1
        ≠ ConnectOutcome.unavailable := by
  intro fuel
  induction fuel with
  | zero => intro selFuel draws connectOk status; simp [connect_to_upstream]
  | succ n ih =>
      intro selFuel draws connectOk status
      rcases hsel : choose_health_upstream_randomly selFuel (draws 0) status with - | r
      · simp [connect_to_upstream, hsel]
      · cases r with
        | none => exact absurd hsel (selector_ne_some_none selFuel (draws 0) status)
        | some idx =>
            simp only [connect_to_upstream, hsel]
            split
            · simp
            · exact ih selFuel (fun n => draws (n + 1)) connectOk (status.set idx false)

/-! ## Claim theorems C1-C3 -/

/-- C1: the claim says that with every upstream marked unhealthy,
`connect_to_upstream` returns `Unavailable` (all-false health flags being
the sole exit of the retry loop).  The code instead loops forever: for
every fuel bound the call is still running (`diverged`), and the
`unavailable` outcome is unreachable for any input, because the selector
loop has no path that returns `None`. -/
theorem connect_diverges_when_all_unhealthy (status : List Bool)
    (h : ∀ b ∈ status, b = false) :
    (∀ (fuel selFuel : Nat) (draws : Nat → Nat → Nat) (connectOk : Nat → Bool),
        (connect_to_upstream fuel selFuel draws connectOk status).1
          = ConnectOutcome.diverged)
    ∧ (∀ (fuel selFuel : Nat) (draws : Nat → Nat → Nat) (connectOk : Nat → Bool)
        (status₂ : List Bool),
        (connect_to_upstream fuel selFuel draws connectOk status₂).1
          ≠ ConnectOutcome.unavailable) := by
  constructor
  · intro fuel selFuel draws connectOk
    cases fuel with
    | zero => rfl
    | succ n => simp [connect_to_upstream, selector_all_false h]
  · intro fuel selFuel draws connectOk status₂
    exact connect_ne_unavailable fuel selFuel draws connectOk status₂

/-- Witness for C1: with both upstreams marked unhealthy, a concrete run
of the connect loop is still looping after its fuel is spent. -/
theorem connect_diverges_when_all_unhealthy_witness :
    (connect_to_upstream 4 4 (fun _ _ => 0) (fun _ => false) [false, false]).1
      = ConnectOutcome.diverged :=
  (connect_diverges_when_all_unhealthy [false, false] (by decide)).1 4 4
    (fun _ _ => 0) (fun _ => false)

/-- C2: the claim says that with `max_requests_per_minute = 0` (the
default) the limiter is never invoked and no client ever receives a 429.
In the code, `handle_connection` calls `check_rate_limit_counter`
unconditionally; with max 0 the post-increment count 1 exceeds 0, so the
very first request from any client is answered with 429 and dropped —
the rate map even records the increment, showing the limiter ran. -/
theorem max_zero_rejects_every_request :
    (handle_connection
        { clientIp := "203.0.113.7", fuel := 1, selFuel := 1,
          draws := fun _ _ => 0, connectOk := fun _ => true, steps := [] }
        (initState ["127.0.0.1:4000"] 10 0)).2
      = [Event.sentResponse STATUS_TOO_MANY_REQUESTS]
    ∧ (handle_connection
        { clientIp := "203.0.113.7", fuel := 1, selFuel := 1,
          draws := fun _ _ => 0, connectOk := fun _ => true, steps := [] }
        (initState ["127.0.0.1:4000"] 10 0)).1.rate_limit_counter
      = [("203.0.113.7", 1)] := by
  exact ⟨rfl, rfl⟩

/-- C3: the claim says the window resetter is an unbounded loop that
sleeps and clears the map repeatedly.  The body of
`refresh_rate_limit_counter` is straight-line: its complete trace is one
sleep followed by one clear, so the map is cleared exactly once in the
life of the task, not periodically. -/
theorem refresh_rate_limit_counter_runs_once (interval : Nat) :
    refresh_rate_limit_counter interval
        = [ResetEvent.sleep interval, ResetEvent.clearMap]
    ∧ List.countP (fun e => decide (e = ResetEvent.clearMap))
        (refresh_rate_limit_counter interval) = 1 := by
  refine ⟨rfl, ?_⟩
  simp [refresh_rate_limit_counter]

/-! ## Lemmas about the relay loop -/

/-- No iteration of the relay loop emits an upstream-connection event:
`connect_to_upstream` is not called from inside the loop. -/
lemma relayStepRun_no_connect (idx : Nat) (step : RelayStep) (j : Nat) :
    Event.connectedUpstream j ∉ (relayStepRun idx step).1 := by
  rcases hr : step.readResult with e | u
  · cases e with
    | incompleteRequest n =>
        cases n with
        | zero => simp [relayStepRun, hr]
        | succ m => simp [relayStepRun, hr]
    | malformedRequest => simp [relayStepRun, hr]
    | invalidContentLength => simp [relayStepRun, hr]
    | contentLengthMismatch => simp [relayStepRun, hr]
    | requestBodyTooLarge => simp [relayStepRun, hr]
    | connectionError => simp [relayStepRun, hr]
  · cases hw : step.writeOk <;> cases hresp : step.respOk <;>
      simp [relayStepRun, hr, hw, hresp]

/-- Any forwarded request in a relay iteration goes to the upstream the
loop was given. -/
lemma relayStepRun_forward_eq (idx : Nat) (step : RelayStep) (j : Nat)
    (h : Event.forwardedRequest j ∈ (relayStepRun idx step).1) : j = idx := by
  rcases hr : step.readResult with e | u
  · cases e with
    | incompleteRequest n =>
        cases n with
        | zero => simp [relayStepRun, hr] at h
        | succ m => simp [relayStepRun, hr] at h
    | malformedRequest => simp [relayStepRun, hr] at h
    | invalidContentLength => simp [relayStepRun, hr] at h
    | contentLengthMismatch => simp [relayStepRun, hr] at h
    | requestBodyTooLarge => simp [relayStepRun, hr] at h
    | connectionError => simp [relayStepRun, hr] at h
  · cases hw : step.writeOk <;> cases hresp : step.respOk <;>
      simp [relayStepRun, hr, hw, hresp] at h <;> tauto

/-- The relay loop never emits an upstream-connection event. -/
lemma relayLoop_no_connect (idx : Nat) (steps : List RelayStep) (j : Nat) :
    Event.connectedUpstream j ∉ relayLoop idx steps := by
  induction steps with
  | nil => simp [relayLoop]
  | cons step rest ih =>
      have hstep := relayStepRun_no_connect idx step j
      rcases hs : relayStepRun idx step with ⟨evs, cont⟩
      rw [hs] at hstep
      cases cont <;> simp [relayLoop, hs, List.mem_append] <;> tauto

/-- Every request the relay loop forwards goes to the single upstream
connection it was given. -/
lemma relayLoop_forward_eq (idx : Nat) (steps : List RelayStep) (j : Nat)
    (h : Event.forwardedRequest j ∈ relayLoop idx steps) : j = idx := by
  induction steps with
  | nil => simp [relayLoop] at h
  | cons step rest ih =>
      have hstep := relayStepRun_forward_eq idx step j
      rcases hs : relayStepRun idx step with ⟨evs, cont⟩
      rw [hs] at hstep
      cases cont <;> simp [relayLoop, hs, List.mem_append] at h
      · exact hstep h
      · rcases h with h | h
        · exact hstep h
        · exact ih h

/-! ## Claim theorems C6-C7 -/

/-- C6: a request-parsing error other than a clean hang-up
(`IncompleteRequest(0)`) or a transport error (`ConnectionError`) makes
the handler send the matching error response — 400 for an invalid
content length, 413 for an oversized body — and continue the relay loop
on the same client connection: the remaining iterations still run. -/
theorem parse_error_keeps_connection (idx : Nat) (e : RequestError)
    (step : RelayStep) (rest : List RelayStep)
    (hread : step.readResult = Except.error e)
    (h0 : e ≠ RequestError.incompleteRequest 0)
    (hio : e ≠ RequestError.connectionError) :
    relayLoop idx (step :: rest)
        = Event.sentResponse (errorStatus e) :: relayLoop idx rest
    ∧ errorStatus RequestError.invalidContentLength = STATUS_BAD_REQUEST
    ∧ errorStatus RequestError.requestBodyTooLarge = STATUS_PAYLOAD_TOO_LARGE := by
  refine ⟨?_, rfl, rfl⟩
  have hstep : relayStepRun idx step = ([Event.sentResponse (errorStatus e)], true) := by
    cases e with
    | incompleteRequest n =>
        cases n with
        | zero => exact absurd rfl h0
        | succ m => simp [relayStepRun, hread]
    | malformedRequest => simp [relayStepRun, hread]
    | invalidContentLength => simp [relayStepRun, hread]
    | contentLengthMismatch => simp [relayStepRun, hread]
    | requestBodyTooLarge => simp [relayStepRun, hread]
    | connectionError => exact absurd rfl hio
  simp [relayLoop, hstep]

/-- Witness for C6: an invalid-content-length error is answered with 400
and a following valid request on the same connection is still relayed. -/
theorem parse_error_keeps_connection_witness :
    relayLoop 0
        ({ readResult := Except.error RequestError.invalidContentLength,
           writeOk := true, respOk := true }
          :: [{ readResult := Except.ok (), writeOk := true, respOk := true }])
        = Event.sentResponse (errorStatus RequestError.invalidContentLength)
            :: relayLoop 0 [{ readResult := Except.ok (), writeOk := true, respOk := true }]
    ∧ errorStatus RequestError.invalidContentLength = STATUS_BAD_REQUEST
    ∧ errorStatus RequestError.requestBodyTooLarge = STATUS_PAYLOAD_TOO_LARGE :=
  parse_error_keeps_connection 0 RequestError.invalidContentLength
    { readResult := Except.error RequestError.invalidContentLength,
      writeOk := true, respOk := true }
    [{ readResult := Except.ok (), writeOk := true, respOk := true }]
    rfl (by decide) (by decide)

/-- C7: once a request has been read on an established upstream
connection, a failed write to the upstream, or a failed read of its
response, makes the handler send 502 to the client and return: the
remaining oracle steps are never processed (the connection terminates),
and the relay loop never selects another upstream. -/
theorem upstream_transport_error_502 (idx : Nat) (step : RelayStep)
    (rest : List RelayStep) (hread : step.readResult = Except.ok ()) :
    (step.writeOk = false →
        relayLoop idx (step :: rest) = [Event.sentResponse STATUS_BAD_GATEWAY])
    ∧ (step.writeOk = true → step.respOk = false →
        relayLoop idx (step :: rest)
          = [Event.forwardedRequest idx, Event.sentResponse STATUS_BAD_GATEWAY])
    ∧ (∀ (steps : List RelayStep) (j : Nat),
        Event.connectedUpstream j ∉ relayLoop idx steps) := by
  refine ⟨?_, ?_, fun steps j => relayLoop_no_connect idx steps j⟩
  · intro hw
    simp [relayLoop, relayStepRun, hread, hw]
  · intro hw hresp
    simp [relayLoop, relayStepRun, hread, hw, hresp]

/-- Witness for C7: a concrete failed upstream write yields exactly one
502 and drops the rest of the connection's requests. -/
theorem upstream_transport_error_502_witness :
    relayLoop 3
        ({ readResult := Except.ok (), writeOk := false, respOk := true }
          :: [{ readResult := Except.ok (), writeOk := true, respOk := true }])
      = [Event.sentResponse STATUS_BAD_GATEWAY] :=
  (upstream_transport_error_502 3
    { readResult := Except.ok (), writeOk := false, respOk := true }
    [{ readResult := Except.ok (), writeOk := true, respOk := true }]
    rfl).1 rfl

/-! ## Lemmas about `handle_connection` -/

/-- Whatever happens after admission control, the connection handler
leaves the rate map updated with exactly the limiter's increment. -/
lemma handle_connection_rate_map (env : ConnEnv) (s : ProxyState) :
    (handle_connection env s).1.rate_limit_counter
      = rateSet s.rate_limit_counter env.clientIp
          ((rateGet s.rate_limit_counter env.clientIp).getD 0 + 1) := by
  by_cases hc :
      s.max_requests_per_minute
        < (rateGet s.rate_limit_counter env.clientIp).getD 0 + 1
  · simp [handle_connection, check_rate_limit_counter, hc]
  · rcases hres : connect_to_upstream env.fuel env.selFuel env.draws env.connectOk
        s.upstream_status with ⟨res, status2⟩
    cases res <;> simp [handle_connection, check_rate_limit_counter, hc, hres]

/-- A connection rejected by the limiter gets exactly one 429 and the
handler returns before `connect_to_upstream`: the health vector is not
even read. -/
lemma handle_connection_rejected (env : ConnEnv) (s : ProxyState)
    (hc : s.max_requests_per_minute
        < (rateGet s.rate_limit_counter env.clientIp).getD 0 + 1) :
    (handle_connection env s).2 = [Event.sentResponse STATUS_TOO_MANY_REQUESTS]
    ∧ (handle_connection env s).1.upstream_status = s.upstream_status := by
  constructor <;> simp [handle_connection, check_rate_limit_counter, hc]

/-! ## Claim theorem C4 -/

/-- C4: with a positive configured maximum, the limiter stores the
post-increment count for the client's IP (an absent entry starts at 0),
rejects exactly when that count strictly exceeds the maximum, and a
rejected connection receives a single 429 with no upstream interaction.
Concretely, with max 2 a client's first two connections of a window are
relayed and the third is answered 429. -/
theorem rate_limiter_spec (env : ConnEnv) (s : ProxyState)
    (h : 0 < s.max_requests_per_minute) :
    ((handle_connection env s).1.rate_limit_counter
        = rateSet s.rate_limit_counter env.clientIp
            ((rateGet s.rate_limit_counter env.clientIp).getD 0 + 1))
    ∧ ((check_rate_limit_counter s.max_requests_per_minute s.rate_limit_counter
          env.clientIp).2.2 = false
        ↔ s.max_requests_per_minute
            < (rateGet s.rate_limit_counter env.clientIp).getD 0 + 1)
    ∧ (s.max_requests_per_minute
          < (rateGet s.rate_limit_counter env.clientIp).getD 0 + 1 →
        (handle_connection env s).2 = [Event.sentResponse STATUS_TOO_MANY_REQUESTS]
        ∧ (handle_connection env s).1.upstream_status = s.upstream_status)
    ∧ (s.max_requests_per_minute = 2 → s.rate_limit_counter = [] →
        rateGet
            (rateSet (rateSet s.rate_limit_counter env.clientIp 1) env.clientIp 2)
            env.clientIp = some 2
        ∧ (check_rate_limit_counter 2 [] env.clientIp).2.2 = true
        ∧ (check_rate_limit_counter 2 [(env.clientIp, 1)] env.clientIp).2.2 = true
        ∧ (check_rate_limit_counter 2 [(env.clientIp, 2)] env.clientIp).2.2 = false) := by
  refine ⟨handle_connection_rate_map env s, ?_, handle_connection_rejected env s, ?_⟩
  · unfold check_rate_limit_counter
    by_cases hc :
        s.max_requests_per_minute
          < (rateGet s.rate_limit_counter env.clientIp).getD 0 + 1
    all_goals simp [hc]
  · intro h2 hempty
    rw [hempty]
    refine ⟨?_, ?_, ?_, ?_⟩ <;> simp [check_rate_limit_counter, rateSet, rateGet]

/-- Witness for C4: with max 2, a fresh client's first connection is
admitted. -/
theorem rate_limiter_spec_witness :
    ((handle_connection
        { clientIp := "198.51.100.9", fuel := 1, selFuel := 1,
          draws := fun _ _ => 0, connectOk := fun _ => true, steps := [] }
        (initState ["127.0.0.1:4000"] 10 2)).1.rate_limit_counter
      = rateSet [] "198.51.100.9" ((rateGet [] "198.51.100.9").getD 0 + 1)) :=
  (rate_limiter_spec
    { clientIp := "198.51.100.9", fuel := 1, selFuel := 1,
      draws := fun _ _ => 0, connectOk := fun _ => true, steps := [] }
    (initState ["127.0.0.1:4000"] 10 2) (by decide)).1

/-! ## Lemmas about the health-check sweep -/

/-- The sweep loop only overwrites entries in place: the vector length
never changes. -/
lemma sweepLoop_length (probe : Nat → ProbeOutcome) :
    ∀ (idxs : List Nat) (status : List Bool),
      (sweepLoop probe idxs status).length = status.length := by
  intro idxs
  induction idxs with
  | nil => intro status; rfl
  | cons i rest ih =>
      intro status
      rw [sweepLoop, ih, List.length_set]

/-- Running the sweep loop over a concatenation runs it over each part in
order. -/
lemma sweepLoop_append (probe : Nat → ProbeOutcome) (a b : List Nat) :
    ∀ status : List Bool,
      sweepLoop probe (a ++ b) status = sweepLoop probe b (sweepLoop probe a status) := by
  induction a with
  | nil => intro status; rfl
  | cons i rest ih => intro status; rw [List.cons_append, sweepLoop, sweepLoop, ih]

/-- Pointwise characterization of the sweep loop over `0..n`: entries
below `n` hold the probe verdict and entries from `n` on are untouched. -/
lemma sweepLoop_range_getElem (probe : Nat → ProbeOutcome) :
    ∀ (n : Nat) (status : List Bool), n ≤ status.length →
      (∀ j, j < n →
        (sweepLoop probe (List.range n) status)[j]? = some (check_server (probe j)))
      ∧ (∀ j, n ≤ j →
        (sweepLoop probe (List.range n) status)[j]? = status[j]?) := by
  intro n
  induction n with
  | zero =>
      intro status h
      exact ⟨fun j hj => absurd hj (Nat.not_lt_zero j), fun j hj => rfl⟩
  | succ n ih =>
      intro status h
      rw [List.range_succ, sweepLoop_append]
      have hmidlen : (sweepLoop probe (List.range n) status).length = status.length :=
        sweepLoop_length probe (List.range n) status
      have ihs := ih status (by omega)
      have hone : sweepLoop probe [n] (sweepLoop probe (List.range n) status)
          = (sweepLoop probe (List.range n) status).set n (check_server (probe n)) := rfl
      rw [hone]
      constructor
      · intro j hj
        by_cases hjn : j = n
        · subst hjn
          exact List.getElem?_set_eq_of_lt _ (by omega)
        · rw [List.getElem?_set_ne (fun hnj => hjn hnj.symm)]
          exact ihs.1 j (by omega)
      · intro j hj
        rw [List.getElem?_set_ne (by omega)]
        exact ihs.2 j (by omega)

/-! ## Claim theorem C5 -/

/-- C5: one sweep of `active_health_check` rewrites every entry of the
health vector with the verdict of that upstream's probe (`check_server`),
which is true iff the connect, the request write, and the response read
all succeeded and the status code is exactly 200; the sweep is a full
resync, so any two same-length prior vectors give the same result under
fixed probe outcomes. -/
theorem health_sweep_full_resync (probe : Nat → ProbeOutcome) (status : List Bool) :
    (active_health_check_sweep probe status).length = status.length
    ∧ (∀ j, j < status.length →
        (active_health_check_sweep probe status)[j]? = some (check_server (probe j)))
    ∧ (∀ p : ProbeOutcome,
        check_server p = true
          ↔ p.connectOk = true ∧ p.writeOk = true ∧ p.readResult = some STATUS_OK)
    ∧ (∀ status₂ : List Bool, status₂.length = status.length →
        active_health_check_sweep probe status₂ = active_health_check_sweep probe status) := by
  have hlen : (active_health_check_sweep probe status).length = status.length :=
    sweepLoop_length probe (List.range status.length) status
  have hpt : ∀ j, j < status.length →
      (active_health_check_sweep probe status)[j]? = some (check_server (probe j)) :=
    (sweepLoop_range_getElem probe status.length status (Nat.le_refl _)).1
  refine ⟨hlen, fun j hj => hpt j hj, ?_, ?_⟩
  · intro p
    rcases p with ⟨c, w, r⟩
    cases c <;> cases w <;> rcases r with - | sc <;>
      simp [check_server, STATUS_OK]
  · intro status₂ heq
    have hlen₂ : (active_health_check_sweep probe status₂).length = status₂.length :=
      sweepLoop_length probe (List.range status₂.length) status₂
    have hpt₂ : ∀ j, j < status₂.length →
        (active_health_check_sweep probe status₂)[j]? = some (check_server (probe j)) :=
      (sweepLoop_range_getElem probe status₂.length status₂ (Nat.le_refl _)).1
    apply List.ext_getElem?
    intro j
    by_cases hj : j < status.length
    · rw [hpt j hj, hpt₂ j (by omega)]
    · have h1 : (active_health_check_sweep probe status)[j]? = none := by
        rw [List.getElem?_eq_none_iff]
        omega
      have h2 : (active_health_check_sweep probe status₂)[j]? = none := by
        rw [List.getElem?_eq_none_iff]
        omega
      rw [h1, h2]

/-- Witness for C5: a two-upstream sweep where upstream 0 answers 200 and
upstream 1 fails its connect yields `[true, false]` entries. -/
theorem health_sweep_full_resync_witness :
    (active_health_check_sweep
        (fun i => if i = 0 then ⟨true, true, some 200⟩ else ⟨false, true, none⟩)
        [false, true])[0]?
      = some (check_server ⟨true, true, some 200⟩) :=
  (health_sweep_full_resync
      (fun i => if i = 0 then ⟨true, true, some 200⟩ else ⟨false, true, none⟩)
      [false, true]).2.1 0 (by decide)

/-! ## State-machine lemmas -/

/-- The connect retry loop only flips individual health flags to false:
the health vector keeps its length. -/
lemma connect_status_length :
    ∀ (fuel selFuel : Nat) (draws : Nat → Nat → Nat) (connectOk : Nat → Bool)
      (status : List Bool),
      ((connect_to_upstream fuel selFuel draws connectOk status).2).length
        = status.length := by
  intro fuel
  induction fuel with
  | zero => intro selFuel draws connectOk status; rfl
  | succ n ih =>
      intro selFuel draws connectOk status
      rcases hsel : choose_health_upstream_randomly selFuel (draws 0) status with - | r
      · simp [connect_to_upstream, hsel]
      · cases r with
        | none => simp [connect_to_upstream, hsel]
        | some idx =>
            simp only [connect_to_upstream, hsel]
            split
            · rfl
            · rw [ih selFuel (fun n => draws (n + 1)) connectOk (status.set idx false),
                List.length_set]

/-- Handling one connection never changes the address list and never
changes the health vector's length. -/
lemma handle_connection_preserves (env : ConnEnv) (s : ProxyState) :
    (handle_connection env s).1.upstream_addresses = s.upstream_addresses
    ∧ (handle_connection env s).1.upstream_status.length = s.upstream_status.length := by
  by_cases hc : s.max_requests_per_minute
      < (rateGet s.rate_limit_counter env.clientIp).getD 0 + 1
  · constructor <;> simp [handle_connection, check_rate_limit_counter, hc]
  · rcases hres : connect_to_upstream env.fuel env.selFuel env.draws env.connectOk
        s.upstream_status with ⟨res, status2⟩
    have hl : status2.length = s.upstream_status.length := by
      have hall := connect_status_length env.fuel env.selFuel env.draws env.connectOk
        s.upstream_status
      rw [hres] at hall
      exact hall
    cases res <;> constructor <;>
      simp [handle_connection, check_rate_limit_counter, hc, hres, hl]

/-- Every operation preserves the address list and the health vector's
length. -/
lemma applyOp_preserves (s : ProxyState) (op : Op) :
    (applyOp s op).upstream_addresses = s.upstream_addresses
    ∧ (applyOp s op).upstream_status.length = s.upstream_status.length := by
  cases op with
  | sweep probe =>
      exact ⟨rfl, sweepLoop_length probe (List.range s.upstream_status.length)
        s.upstream_status⟩
  | conn env => exact handle_connection_preserves env s
  | refresh => exact ⟨rfl, rfl⟩

/-- The length invariant is inductive over operation sequences. -/
lemma runOps_length_invariant :
    ∀ (ops : List Op) (s : ProxyState),
      s.upstream_status.length = s.upstream_addresses.length →
      (runOps s ops).upstream_status.length
        = (runOps s ops).upstream_addresses.length := by
  intro ops
  induction ops with
  | nil => intro s h; exact h
  | cons op rest ih =>
      intro s h
      have hp := applyOp_preserves s op
      have hstep : (applyOp s op).upstream_status.length
          = (applyOp s op).upstream_addresses.length := by
        rw [hp.1, hp.2, h]
      exact ih (applyOp s op) hstep

/-! ## Claim theorems C8-C10 -/

/-- C8: from the initial state — one health flag per configured upstream —
no reachable state changes either sequence's length: after any sequence
of health sweeps, connection handlings (including connect failovers),
and rate-map resets, `upstream_status` and `upstream_addresses` still
have equal lengths. -/
theorem health_vector_length_invariant (upstreams : List String)
    (interval maxReq : Nat) (ops : List Op) :
    (runOps (initState upstreams interval maxReq) ops).upstream_status.length
      = (runOps (initState upstreams interval maxReq) ops).upstream_addresses.length :=
  runOps_length_invariant ops (initState upstreams interval maxReq)
    (by simp [initState])

/-- C9: `main` creates the health vector as `vec![true; len]`, so before
any sweep every upstream is marked healthy, and the selector can
immediately return an index that has never been probed: one iteration
suffices on the fresh state. -/
theorem initial_health_all_true (upstreams : List String) (interval maxReq : Nat)
    (draws : Nat → Nat) (h : 0 < upstreams.length) :
    (initState upstreams interval maxReq).upstream_status
        = List.replicate upstreams.length true
    ∧ (∀ b ∈ (initState upstreams interval maxReq).upstream_status, b = true)
    ∧ choose_health_upstream_randomly 1 draws
        (initState upstreams interval maxReq).upstream_status
        = some (some (draws 0 % upstreams.length)) := by
  refine ⟨rfl, ?_, ?_⟩
  · intro b hb
    exact List.eq_of_mem_replicate hb
  · have hlt : draws 0 % upstreams.length < upstreams.length := Nat.mod_lt _ h
    show choose_health_upstream_randomly 1 draws (List.replicate upstreams.length true) = _
    simp [choose_health_upstream_randomly, List.getD_eq_getElem?_getD, hlt]

/-- Witness for C9: with three upstreams, the fresh state is all-true and
the first draw is returned unprobed. -/
theorem initial_health_all_true_witness :
    (initState ["a", "b", "c"] 10 0).upstream_status = List.replicate 3 true
    ∧ (∀ b ∈ (initState ["a", "b", "c"] 10 0).upstream_status, b = true)
    ∧ choose_health_upstream_randomly 1 (fun _ => 5)
        (initState ["a", "b", "c"] 10 0).upstream_status
        = some (some (5 % 3)) :=
  initial_health_all_true ["a", "b", "c"] 10 0 (fun _ => 5) (by decide)

/-- The trace of one connection has exactly four shapes: a 429 rejection,
silence (the handler is stuck inside the connect loop), a 502 with no
upstream, or one connect event followed by the relay trace. -/
lemma handle_trace_shape (env : ConnEnv) (s : ProxyState) :
    (handle_connection env s).2 = [Event.sentResponse STATUS_TOO_MANY_REQUESTS]
    ∨ (handle_connection env s).2 = []
    ∨ (handle_connection env s).2 = [Event.sentResponse STATUS_BAD_GATEWAY]
    ∨ ∃ idx, (handle_connection env s).2
        = Event.connectedUpstream idx :: relayLoop idx env.steps := by
  by_cases hc : s.max_requests_per_minute
      < (rateGet s.rate_limit_counter env.clientIp).getD 0 + 1
  · exact Or.inl (by simp [handle_connection, check_rate_limit_counter, hc])
  · rcases hres : connect_to_upstream env.fuel env.selFuel env.draws env.connectOk
        s.upstream_status with ⟨res, status2⟩
    cases res with
    | connected idx =>
        exact Or.inr (Or.inr (Or.inr ⟨idx,
          by simp [handle_connection, check_rate_limit_counter, hc, hres]⟩))
    | unavailable =>
        exact Or.inr (Or.inr (Or.inl
          (by simp [handle_connection, check_rate_limit_counter, hc, hres])))
    | diverged =>
        exact Or.inr (Or.inl
          (by simp [handle_connection, check_rate_limit_counter, hc, hres]))

/-- C10: whenever a connection's trace contains an upstream-connect
event, that event opens the trace, no second connect ever occurs, and
every request forwarded afterwards goes to that same upstream: the
upstream is chosen once, before the relay loop, and never re-selected. -/
theorem upstream_connected_once (env : ConnEnv) (s : ProxyState) (i : Nat)
    (h : Event.connectedUpstream i ∈ (handle_connection env s).2) :
    ∃ t, (handle_connection env s).2 = Event.connectedUpstream i :: t
      ∧ (∀ j, Event.connectedUpstream j ∉ t)
      ∧ (∀ j, Event.forwardedRequest j ∈ t → j = i) := by
  rcases handle_trace_shape env s with h1 | h1 | h1 | ⟨idx, h1⟩
  · rw [h1] at h; simp at h
  · rw [h1] at h; simp at h
  · rw [h1] at h; simp at h
  · rw [h1] at h
    rcases List.mem_cons.mp h with heq | hmem
    · have hidx : i = idx := by simpa using heq
      subst hidx
      exact ⟨relayLoop i env.steps, h1,
        fun j => relayLoop_no_connect i env.steps j,
        fun j hj => relayLoop_forward_eq i env.steps j hj⟩
    · exact absurd hmem (relayLoop_no_connect idx env.steps i)

/-- Witness for C10: a concrete accepted connection that relays one
request connects exactly once, at the head of its trace. -/
theorem upstream_connected_once_witness :
    ∃ t, (handle_connection
        { clientIp := "192.0.2.1", fuel := 1, selFuel := 1,
          draws := fun _ _ => 0, connectOk := fun _ => true,
          steps := [{ readResult := Except.ok (), writeOk := true, respOk := true }] }
        (initState ["127.0.0.1:4000"] 10 5)).2
        = Event.connectedUpstream 0 :: t
      ∧ (∀ j, Event.connectedUpstream j ∉ t)
      ∧ (∀ j, Event.forwardedRequest j ∈ t → j = 0) :=
  upstream_connected_once
    { clientIp := "192.0.2.1", fuel := 1, selFuel := 1,
      draws := fun _ _ => 0, connectOk := fun _ => true,
      steps := [{ readResult := Except.ok (), writeOk := true, respOk := true }] }
    (initState ["127.0.0.1:4000"] 10 5) 0 (by decide)

end BalanceBeam
